import Mathlib

/-!
# Verification of the baytrail x86 chipset power state machine

Shallow embedding of `src/power/baytrail.c` (Chromium EC firmware).  Pure
functions model the C code; side effects (GPIO writes, hook notifications,
wireless state changes, power-button actions, delays) are recorded as an
ordered trace; the module's static variables are threaded explicitly as an
`EcState` record; reads of the hardware environment (signal mask, input GPIO
levels, `power_wait_signals` outcomes, the platform-reset line sampled during
the bounded poll) come from an explicit `Env` record.
-/

set_option maxRecDepth 4000

/-- The power-state enum used by the state machine.  The constructors are
exactly the `enum power_state` members referenced by `baytrail.c`:
steady states `G3`, `S5`, `S3`, `S0` and the transitional states. -/
inductive PowerState where
  | POWER_G3
  | POWER_S5
  | POWER_S3
  | POWER_S0
  | POWER_G3S5
  | POWER_S5S3
  | POWER_S3S0
  | POWER_S0S3
  | POWER_S3S5
  | POWER_S5G3
deriving DecidableEq, Repr

/-- The GPIO lines read or written by `baytrail.c` (names from the source,
`GPIO_` dropped). -/
inductive Gpio where
  | PCH_SYS_PWROK
  | PCH_CORE_PWROK
  | PCH_RSMRST_L
  | PCH_RCIN_L
  | VCORE_EN
  | SUSP_VR_EN
  | PP1350_EN
  | PP3300_DX_EN
  | PP5000_EN
  | TOUCHSCREEN_RESET_L
  | ENABLE_TOUCHPAD
  | CPU_PROCHOT
  | PCH_SLP_S3_L
  | PCH_SLP_S4_L
deriving DecidableEq, Repr

/-- Wireless states passed to `wireless_set_state`. -/
inductive Wireless where
  | WIRELESS_OFF
  | WIRELESS_SUSPEND
  | WIRELESS_ON
deriving DecidableEq, Repr

/-- Hook (event-notifier) kinds fired by the state machine. -/
inductive Hook where
  | HOOK_CHIPSET_STARTUP
  | HOOK_CHIPSET_RESUME
  | HOOK_CHIPSET_SUSPEND
  | HOOK_CHIPSET_SHUTDOWN
deriving DecidableEq, Repr

/-- One observable side effect of the module, in the order performed. -/
inductive Effect where
  | gpio_set_level (g : Gpio) (level : Int)
  | hook_notify (h : Hook)
  | wireless_set_state (w : Wireless)
  | power_button_pch_release
  | power_button_pch_pulse
  | disable_sleep
  | enable_sleep
  | delay_us (n : Nat)
deriving DecidableEq, Repr

/-- The module's `static int` variables of `baytrail.c`, threaded explicitly:
`throttle_cpu`, `pause_in_s5` (default 1), `restart_from_s5`,
`fake_pltrst_timeout`. -/
structure EcState where
  throttle_cpu : Int
  pause_in_s5 : Int
  restart_from_s5 : Int
  fake_pltrst_timeout : Int
deriving DecidableEq, Repr

/-- The hardware environment observed during one call: the live power-signal
mask, input GPIO levels, the lid switch, the outcome of each
`power_wait_signals` call (keyed by the requested mask; `true` = timed out),
the platform-reset line as sampled at each poll iteration, and the build/usb
configuration consulted by the `S0S3` edge. -/
structure Env where
  signals : Nat
  gpio_in : Gpio → Int
  lid_open : Int
  wait_timeout : Nat → Bool
  pltrst_asserted : Nat → Bool
  usb_ports_enabled : Bool
  cfg_usb_port_power_in_s3 : Bool

/-- Microseconds in a millisecond (`MSEC` of the EC timer header). -/
def MSEC : Nat := 1000

/-- Modelled from the spec: the fixed signal-to-bit assignment of the
`SignalMask` bitset (the `power_signal` enum lives in the board header, not
in the sources at hand; the spec fixes only that each named signal has a
distinct bit for the process lifetime). -/
def POWER_SIGNAL_MASK (n : Nat) : Nat := 2 ^ n

def X86_PGOOD_PP5000 : Nat := 0
def X86_PGOOD_PP1050 : Nat := 1
def X86_PGOOD_S5 : Nat := 2
def X86_PGOOD_VCORE : Nat := 3
def X86_SLP_S3_DEASSERTED : Nat := 4
def X86_SLP_S4_DEASSERTED : Nat := 5

def IN_PGOOD_PP5000 : Nat := POWER_SIGNAL_MASK X86_PGOOD_PP5000
def IN_PGOOD_PP1050 : Nat := POWER_SIGNAL_MASK X86_PGOOD_PP1050
def IN_PGOOD_S5 : Nat := POWER_SIGNAL_MASK X86_PGOOD_S5
def IN_PGOOD_VCORE : Nat := POWER_SIGNAL_MASK X86_PGOOD_VCORE
def IN_SLP_S3_DEASSERTED : Nat := POWER_SIGNAL_MASK X86_SLP_S3_DEASSERTED
def IN_SLP_S4_DEASSERTED : Nat := POWER_SIGNAL_MASK X86_SLP_S4_DEASSERTED

/-- All always-on supplies. -/
def IN_PGOOD_ALWAYS_ON : Nat := IN_PGOOD_S5
/-- All non-core power rails. -/
def IN_PGOOD_ALL_NONCORE : Nat := IN_PGOOD_PP5000
/-- All core power rails. -/
def IN_PGOOD_ALL_CORE : Nat := IN_PGOOD_VCORE
/-- Rails required for S3. -/
def IN_PGOOD_S3 : Nat := IN_PGOOD_ALWAYS_ON
/-- Rails required for S0. -/
def IN_PGOOD_S0 : Nat := IN_PGOOD_ALWAYS_ON ||| IN_PGOOD_ALL_NONCORE
/-- All PM_SLP signals from the PCH deasserted. -/
def IN_ALL_PM_SLP_DEASSERTED : Nat := IN_SLP_S3_DEASSERTED ||| IN_SLP_S4_DEASSERTED
/-- All inputs in the right state for S0. -/
def IN_ALL_S0 : Nat :=
  IN_PGOOD_ALWAYS_ON ||| IN_PGOOD_ALL_NONCORE ||| IN_PGOOD_ALL_CORE |||
    IN_ALL_PM_SLP_DEASSERTED

/-- Modelled from the spec: `has_all(mask, required)` of the Signal Source —
true iff every bit in `required` is set in `mask` (the body of
`power_has_signals` lives in the shared power code, not in the sources at
hand). -/
def power_has_signals (e : Env) (want : Nat) : Bool :=
  (e.signals &&& want) = want

/-- Modelled from the spec: `wait_all(required, timeout)` of the Signal
Source blocks until all bits in `required` are set or the timeout elapses
and reports success or timeout, never partial; the outcome for each
requested mask is supplied by the environment (`true` = timed out, matching
the C convention of a nonzero `EC_ERROR_TIMEOUT` return). -/
def power_wait_signals (e : Env) (want : Nat) : Bool :=
  e.wait_timeout want

/-- The GPIO writes performed by `chipset_force_shutdown`: drive
`PCH_SYS_PWROK` and `PCH_RSMRST_L` low. -/
def chipset_force_shutdown_trace : List Effect :=
  [.gpio_set_level .PCH_SYS_PWROK 0, .gpio_set_level .PCH_RSMRST_L 0]

/-- `chipset_force_shutdown`: it touches no module variable and performs
exactly the two GPIO writes of `chipset_force_shutdown_trace`. -/
def chipset_force_shutdown (f : EcState) : EcState × List Effect :=
  (f, chipset_force_shutdown_trace)

/-- `chipset_reset(cold_reset)`: the cold path drops and restores
`PCH_SYS_PWROK` (skipped entirely when PWROK already reads low); the warm
path pulses `PCH_RCIN_L` low for 32 ms. -/
def chipset_reset (e : Env) (cold_reset : Int) : List Effect :=
  if cold_reset ≠ 0 then
    if e.gpio_in .PCH_SYS_PWROK = 0 then
      []
    else
      [.gpio_set_level .PCH_SYS_PWROK 0, .delay_us 100,
       .gpio_set_level .PCH_SYS_PWROK 1]
  else
    [.gpio_set_level .PCH_RCIN_L 0, .delay_us (32 * MSEC),
     .gpio_set_level .PCH_RCIN_L 1]

/-- `power_chipset_init`: `jumped` is `system_jumped_to_this_image()`,
`signals` the live mask.  Returns the initial state and the effect trace. -/
def power_chipset_init (jumped : Bool) (signals : Nat) : PowerState × List Effect :=
  if jumped then
    if (signals &&& IN_ALL_S0) = IN_ALL_S0 then
      (.POWER_S0, [.disable_sleep])
    else
      (.POWER_G3,
       [.gpio_set_level .PCH_CORE_PWROK 0,
        .gpio_set_level .VCORE_EN 0,
        .gpio_set_level .SUSP_VR_EN 0,
        .gpio_set_level .PP1350_EN 0,
        .gpio_set_level .PP3300_DX_EN 0,
        .gpio_set_level .PP5000_EN 0,
        .gpio_set_level .PCH_RSMRST_L 0,
        .gpio_set_level .PCH_SYS_PWROK 0,
        .wireless_set_state .WIRELESS_OFF])
  else
    (.POWER_G3, [])

/-- The result of one `power_handle_state` call: the returned state, the
updated module variables, and the ordered side-effect trace. -/
structure HandleResult where
  state : PowerState
  flags : EcState
  trace : List Effect
deriving DecidableEq, Repr

/-- The `S3S0` platform-reset poll: up to 50 iterations of a 1 ms sleep
followed by a sample of `lpc_get_pltrst_asserted()`; the resulting value of
the loop counter `i` — the first sample index at which the line reads
deasserted, or 50 when it stayed asserted throughout. -/
def pltrst_poll (p : Nat → Bool) : Nat :=
  ((List.range 50).find? (fun i => ! p i)).getD 50

/-- The delays performed by the platform-reset poll (one 1 ms sleep per
executed iteration). -/
def pltrst_poll_delays (p : Nat → Bool) : List Effect :=
  List.replicate (min (pltrst_poll p + 1) 50) (.delay_us MSEC)

/-- `power_handle_state`, the state machine's single-step function, translated
case by case from `baytrail.c`. -/
def power_handle_state (e : Env) (f : EcState) (state : PowerState) : HandleResult :=
  match state with
  | .POWER_G3 => ⟨.POWER_G3, f, []⟩
  | .POWER_S5 =>
      if e.gpio_in .PCH_SLP_S4_L = 1 then
        ⟨.POWER_S5S3, f, []⟩  -- Power up to next state
      else
        ⟨.POWER_S5, f, []⟩
  | .POWER_S3 =>
      -- Hold touchscreen in reset while the lid is closed
      let t0 : List Effect := [.gpio_set_level .TOUCHSCREEN_RESET_L e.lid_open]
      if ¬ power_has_signals e IN_PGOOD_S3 then
        -- Required rail went away
        ⟨.POWER_S3S5, f, t0 ++ chipset_force_shutdown_trace⟩
      else if e.gpio_in .PCH_SLP_S3_L = 1 then
        ⟨.POWER_S3S0, f, t0⟩  -- Power up to next state
      else if e.gpio_in .PCH_SLP_S4_L = 0 then
        ⟨.POWER_S3S5, f, t0⟩  -- Power down to next state
      else
        ⟨.POWER_S3, f, t0⟩
  | .POWER_S0 =>
      if ¬ power_has_signals e IN_PGOOD_S0 then
        -- Required rail went away
        ⟨.POWER_S0S3, f, chipset_force_shutdown_trace⟩
      else if e.gpio_in .PCH_SLP_S3_L = 0 then
        ⟨.POWER_S0S3, f, []⟩  -- Power down to next state
      else
        ⟨.POWER_S0, f, []⟩
  | .POWER_G3S5 =>
      let t0 : List Effect := [.delay_us (10 * MSEC), .gpio_set_level .SUSP_VR_EN 1]
      if power_wait_signals e IN_PGOOD_S5 then
        ⟨.POWER_G3, f,
         t0 ++ [.gpio_set_level .SUSP_VR_EN 0] ++ chipset_force_shutdown_trace⟩
      else
        ⟨.POWER_S5, f,
         t0 ++ [.gpio_set_level .PCH_RSMRST_L 1, .delay_us (10 * MSEC)]⟩
  | .POWER_S5S3 =>
      if power_wait_signals e IN_PGOOD_ALWAYS_ON then
        ⟨.POWER_S5G3, f, chipset_force_shutdown_trace⟩
      else
        -- Turn on power to RAM
        let t1 : List Effect := [.gpio_set_level .PP1350_EN 1]
        if power_wait_signals e IN_PGOOD_S3 then
          ⟨.POWER_S5G3, f, t1 ++ chipset_force_shutdown_trace⟩
        else
          ⟨.POWER_S3, f,
           t1 ++ [.gpio_set_level .ENABLE_TOUCHPAD 1,
                  .hook_notify .HOOK_CHIPSET_STARTUP]⟩
  | .POWER_S3S0 =>
      let t0 : List Effect :=
        [.gpio_set_level .PP5000_EN 1, .delay_us (3 * MSEC),
         .gpio_set_level .PP3300_DX_EN 1,
         .wireless_set_state .WIRELESS_ON,
         .gpio_set_level .TOUCHSCREEN_RESET_L 1]
      if power_wait_signals e IN_PGOOD_S0 then
        ⟨.POWER_S3, f,
         t0 ++ chipset_force_shutdown_trace ++
           [.wireless_set_state .WIRELESS_OFF,
            .gpio_set_level .PP3300_DX_EN 0,
            .gpio_set_level .PP5000_EN 0,
            .gpio_set_level .TOUCHSCREEN_RESET_L 0]⟩
      else
        let t1 : List Effect :=
          t0 ++ [.gpio_set_level .VCORE_EN 1,
                 .hook_notify .HOOK_CHIPSET_RESUME,
                 .disable_sleep,
                 .delay_us (15 * MSEC),
                 .gpio_set_level .CPU_PROCHOT f.throttle_cpu,
                 .gpio_set_level .PCH_SYS_PWROK 1,
                 .gpio_set_level .PCH_CORE_PWROK 1] ++
            pltrst_poll_delays e.pltrst_asserted
        if pltrst_poll e.pltrst_asserted < 50 ∧ f.fake_pltrst_timeout = 0 then
          -- Deasserted in time
          ⟨.POWER_S0, f, t1⟩
        else
          -- Force a reset.  See crosbug.com/p/28422
          ⟨.POWER_S0,
           { f with restart_from_s5 := 1, fake_pltrst_timeout := 0 },
           t1 ++ [.power_button_pch_release] ++ chipset_force_shutdown_trace⟩
  | .POWER_S0S3 =>
      ⟨.POWER_S3, f,
       [.hook_notify .HOOK_CHIPSET_SUSPEND,
        .gpio_set_level .PCH_SYS_PWROK 0,
        .gpio_set_level .PCH_CORE_PWROK 0,
        .delay_us 1,
        .gpio_set_level .VCORE_EN 0,
        .wireless_set_state .WIRELESS_SUSPEND,
        .enable_sleep,
        .gpio_set_level .CPU_PROCHOT 0,
        .delay_us (7 * MSEC),
        .gpio_set_level .PP3300_DX_EN 0] ++
         (if e.cfg_usb_port_power_in_s3 then
            if ¬ e.usb_ports_enabled then [.gpio_set_level .PP5000_EN 0] else []
          else
            [.gpio_set_level .PP5000_EN 0])⟩
  | .POWER_S3S5 =>
      let t0 : List Effect :=
        [.hook_notify .HOOK_CHIPSET_SHUTDOWN,
         .gpio_set_level .PP5000_EN 0,
         .wireless_set_state .WIRELESS_OFF,
         .gpio_set_level .ENABLE_TOUCHPAD 0,
         .gpio_set_level .TOUCHSCREEN_RESET_L 0,
         .gpio_set_level .PP1350_EN 0]
      if f.restart_from_s5 ≠ 0 then
        -- Force system to start back up from scratch
        ⟨.POWER_G3S5, { f with restart_from_s5 := 0 },
         t0 ++ [.delay_us (100 * MSEC), .power_button_pch_pulse]⟩
      else
        ⟨if f.pause_in_s5 ≠ 0 then .POWER_S5 else .POWER_S5G3, f, t0⟩
  | .POWER_S5G3 =>
      ⟨.POWER_G3, f,
       [.gpio_set_level .PCH_RSMRST_L 0, .gpio_set_level .SUSP_VR_EN 0]⟩

/-- Run the control loop `n` times from state `s` with flags `f`, the
environment of iteration `i` given by `es i`; returns the final state and
flags and the concatenated effect trace. -/
def run_from (es : Nat → Env) (f : EcState) (s : PowerState) : Nat → HandleResult
  | 0 => ⟨s, f, []⟩
  | Nat.succ n =>
      let r := power_handle_state (es 0) f s
      let rest := run_from (fun i => es (i + 1)) r.flags r.state n
      ⟨rest.state, rest.flags, r.trace ++ rest.trace⟩

/-- How \"on\" a state is: `G3 = 0 < S5 = 1 < S3 = 2 < S0 = 3`; a
transitional state ranks with the most-on of the two states it connects
downward to (`S3S5` counts as heading to `S5`, etc.), so that \"no more on
than the current state\" reads `on_rank next ≤ on_rank current`. -/
def on_rank : PowerState → Nat
  | .POWER_G3 => 0
  | .POWER_S5G3 => 0
  | .POWER_G3S5 => 1
  | .POWER_S5 => 1
  | .POWER_S3S5 => 1
  | .POWER_S5S3 => 2
  | .POWER_S3 => 2
  | .POWER_S0S3 => 2
  | .POWER_S3S0 => 3
  | .POWER_S0 => 3

/-- The members of the power-state enum. -/
def all_power_states : List PowerState :=
  [.POWER_G3, .POWER_S5, .POWER_S3, .POWER_S0, .POWER_G3S5, .POWER_S5S3,
   .POWER_S3S0, .POWER_S0S3, .POWER_S3S5, .POWER_S5G3]

/-- True when the steady state `s` has no outgoing transition condition
satisfied in environment `e` (transitional states always move on, so they
never qualify). -/
def no_outgoing (e : Env) : PowerState → Bool
  | .POWER_G3 => true
  | .POWER_S5 => e.gpio_in .PCH_SLP_S4_L != 1
  | .POWER_S3 =>
      power_has_signals e IN_PGOOD_S3 &&
        (e.gpio_in .PCH_SLP_S3_L != 1) && (e.gpio_in .PCH_SLP_S4_L != 0)
  | .POWER_S0 =>
      power_has_signals e IN_PGOOD_S0 && (e.gpio_in .PCH_SLP_S3_L != 0)
  | _ => false

/-- The effects of the `S3S5` edge that precede its exit-state decision. -/
def s3s5_base_trace : List Effect :=
  [.hook_notify .HOOK_CHIPSET_SHUTDOWN,
   .gpio_set_level .PP5000_EN 0,
   .wireless_set_state .WIRELESS_OFF,
   .gpio_set_level .ENABLE_TOUCHPAD 0,
   .gpio_set_level .TOUCHSCREEN_RESET_L 0,
   .gpio_set_level .PP1350_EN 0]

/-- The effects of the `S3S0` edge on the successful-wait path, up to and
including the two PWROK writes that precede the platform-reset poll. -/
def s3s0_on_trace (f : EcState) : List Effect :=
  [.gpio_set_level .PP5000_EN 1, .delay_us (3 * MSEC),
   .gpio_set_level .PP3300_DX_EN 1,
   .wireless_set_state .WIRELESS_ON,
   .gpio_set_level .TOUCHSCREEN_RESET_L 1,
   .gpio_set_level .VCORE_EN 1,
   .hook_notify .HOOK_CHIPSET_RESUME,
   .disable_sleep,
   .delay_us (15 * MSEC),
   .gpio_set_level .CPU_PROCHOT f.throttle_cpu,
   .gpio_set_level .PCH_SYS_PWROK 1,
   .gpio_set_level .PCH_CORE_PWROK 1]

/-- EC return codes used by the console command handler. -/
inductive EcRc where
  | EC_SUCCESS
  | EC_ERROR_INVAL
deriving DecidableEq, Repr

/-- Modelled from the spec: `parse_bool` (shared console utility, not among
the sources at hand) parses the tunable's boolean argument; the command's
documented argument forms are `[on|off]`, and an argument that parses as
neither true nor false is rejected. -/
def parse_bool (s : String) : Option Bool :=
  if s = "on" then some true
  else if s = "off" then some false
  else none

/-- `console_command_gsv`, the `pause_in_s5` console command: with an
argument present, a failed `parse_bool` yields `EC_ERROR_INVAL` and leaves
the tunable unchanged; otherwise the parsed value is stored and the
command prints the setting and returns `EC_SUCCESS`. -/
def console_command_gsv (argv : List String) (pause_in_s5 : Int) : EcRc × Int :=
  match argv with
  | _ :: arg :: _ =>
      match parse_bool arg with
      | some b => (.EC_SUCCESS, if b then 1 else 0)
      | none => (.EC_ERROR_INVAL, pause_in_s5)
  | _ => (.EC_SUCCESS, pause_in_s5)

/-- The module's flags at their `baytrail.c` initial values. -/
def flags0 : EcState := ⟨0, 1, 0, 0⟩

/-- A concrete dead environment: no signal asserted, every input low, every
wait timing out, the platform-reset line stuck asserted. -/
def env_dead : Env :=
  ⟨0, fun _ => 0, 0, fun _ => true, fun _ => true, false, false⟩

/-- A concrete live environment: all six signals asserted, every input high,
no wait timing out, the platform-reset line deasserted at once. -/
def env_live : Env :=
  ⟨63, fun _ => 1, 1, fun _ => false, fun _ => false, false, false⟩

/-- A concrete environment where the rails all come up but the
platform-reset line stays asserted at every poll sample. -/
def env_stuck : Env :=
  ⟨63, fun _ => 1, 1, fun _ => false, fun _ => true, false, false⟩

/-- A concrete steady-`S0` environment whose mask asserts every `S0`-relevant
signal except the core power-good `IN_PGOOD_VCORE`, with the sleep lines
still requesting full power. -/
def env_no_vcore : Env :=
  ⟨IN_PGOOD_S5 ||| IN_PGOOD_PP5000 ||| IN_SLP_S3_DEASSERTED ||| IN_SLP_S4_DEASSERTED,
   fun _ => 1, 1, fun _ => false, fun _ => false, false, false⟩

/-- The four consecutive control-loop steps of the restart scenario: the
`S3S0` edge, then (with the post-shutdown environment) the `S0` steady
state, the `S0S3` edge, and the `S3S5` edge, each fed the flags produced by
the previous step. -/
def restart_chain (e1 e2 : Env) (f : EcState) :
    HandleResult × HandleResult × HandleResult × HandleResult :=
  let r1 := power_handle_state e1 f .POWER_S3S0
  let r2 := power_handle_state e2 r1.flags .POWER_S0
  let r3 := power_handle_state e2 r2.flags .POWER_S0S3
  let r4 := power_handle_state e2 r3.flags .POWER_S3S5
  (r1, r2, r3, r4)

/-- C1: Fault asymmetry invariant.  A required-rail absence detected in
steady `S3` or `S0` (`power_has_signals` failing), or a
`power_wait_signals` timeout inside the transitional `G3S5`, `S5S3` or
`S3S0` edges, makes `power_handle_state` perform the
`chipset_force_shutdown` writes and return a state no more on than the
current one: `S3 ↦ S3S5`, `S0 ↦ S0S3`, `G3S5 ↦ G3`, `S5S3 ↦ S5G3`,
`S3S0 ↦ S3`. -/
theorem fault_asymmetry (e : Env) (f : EcState) :
    (power_has_signals e IN_PGOOD_S3 = false →
      (power_handle_state e f .POWER_S3).state = .POWER_S3S5 ∧
      chipset_force_shutdown_trace <:+: (power_handle_state e f .POWER_S3).trace ∧
      on_rank (power_handle_state e f .POWER_S3).state ≤ on_rank .POWER_S3) ∧
    (power_has_signals e IN_PGOOD_S0 = false →
      (power_handle_state e f .POWER_S0).state = .POWER_S0S3 ∧
      chipset_force_shutdown_trace <:+: (power_handle_state e f .POWER_S0).trace ∧
      on_rank (power_handle_state e f .POWER_S0).state ≤ on_rank .POWER_S0) ∧
    (power_wait_signals e IN_PGOOD_S5 = true →
      (power_handle_state e f .POWER_G3S5).state = .POWER_G3 ∧
      chipset_force_shutdown_trace <:+: (power_handle_state e f .POWER_G3S5).trace ∧
      on_rank (power_handle_state e f .POWER_G3S5).state ≤ on_rank .POWER_G3S5) ∧
    (power_wait_signals e IN_PGOOD_ALWAYS_ON = true ∨
        power_wait_signals e IN_PGOOD_S3 = true →
      (power_handle_state e f .POWER_S5S3).state = .POWER_S5G3 ∧
      chipset_force_shutdown_trace <:+: (power_handle_state e f .POWER_S5S3).trace ∧
      on_rank (power_handle_state e f .POWER_S5S3).state ≤ on_rank .POWER_S5S3) ∧
    (power_wait_signals e IN_PGOOD_S0 = true →
      (power_handle_state e f .POWER_S3S0).state = .POWER_S3 ∧
      chipset_force_shutdown_trace <:+: (power_handle_state e f .POWER_S3S0).trace ∧
      on_rank (power_handle_state e f .POWER_S3S0).state ≤ on_rank .POWER_S3S0) := by
  refine ⟨fun h => ?_, fun h => ?_, fun h => ?_, fun h => ?_, fun h => ?_⟩
  · have hr : power_handle_state e f .POWER_S3 =
        ⟨.POWER_S3S5, f,
         .gpio_set_level .TOUCHSCREEN_RESET_L e.lid_open ::
           chipset_force_shutdown_trace⟩ := by
      simp [power_handle_state, h]
    rw [hr]
    exact ⟨rfl,
      ⟨[.gpio_set_level .TOUCHSCREEN_RESET_L e.lid_open], [], by simp⟩,
      by simp [on_rank]⟩
  · have hr : power_handle_state e f .POWER_S0 =
        ⟨.POWER_S0S3, f, chipset_force_shutdown_trace⟩ := by
      simp [power_handle_state, h]
    rw [hr]
    exact ⟨rfl, List.infix_refl _, by simp [on_rank]⟩
  · have h' : e.wait_timeout IN_PGOOD_S5 = true := h
    have hr : power_handle_state e f .POWER_G3S5 =
        ⟨.POWER_G3, f,
         [.delay_us (10 * MSEC), .gpio_set_level .SUSP_VR_EN 1,
          .gpio_set_level .SUSP_VR_EN 0] ++ chipset_force_shutdown_trace⟩ := by
      simp [power_handle_state, power_wait_signals, h']
    rw [hr]
    refine ⟨rfl, ?_, by simp [on_rank]⟩
    exact ⟨[.delay_us (10 * MSEC), .gpio_set_level .SUSP_VR_EN 1,
            .gpio_set_level .SUSP_VR_EN 0], [], by simp⟩
  · have h' : e.wait_timeout IN_PGOOD_ALWAYS_ON = true := by
      rcases h with h | h <;> exact h
    have hr : power_handle_state e f .POWER_S5S3 =
        ⟨.POWER_S5G3, f, chipset_force_shutdown_trace⟩ := by
      simp [power_handle_state, power_wait_signals, h']
    rw [hr]
    exact ⟨rfl, List.infix_refl _, by simp [on_rank]⟩
  · have h' : e.wait_timeout IN_PGOOD_S0 = true := h
    have hr : power_handle_state e f .POWER_S3S0 =
        ⟨.POWER_S3, f,
         [.gpio_set_level .PP5000_EN 1, .delay_us (3 * MSEC),
          .gpio_set_level .PP3300_DX_EN 1,
          .wireless_set_state .WIRELESS_ON,
          .gpio_set_level .TOUCHSCREEN_RESET_L 1] ++
           chipset_force_shutdown_trace ++
           [.wireless_set_state .WIRELESS_OFF,
            .gpio_set_level .PP3300_DX_EN 0,
            .gpio_set_level .PP5000_EN 0,
            .gpio_set_level .TOUCHSCREEN_RESET_L 0]⟩ := by
      simp [power_handle_state, power_wait_signals, h']
    rw [hr]
    refine ⟨rfl, ?_, by simp [on_rank]⟩
    exact ⟨[.gpio_set_level .PP5000_EN 1, .delay_us (3 * MSEC),
            .gpio_set_level .PP3300_DX_EN 1,
            .wireless_set_state .WIRELESS_ON,
            .gpio_set_level .TOUCHSCREEN_RESET_L 1],
           [.wireless_set_state .WIRELESS_OFF,
            .gpio_set_level .PP3300_DX_EN 0,
            .gpio_set_level .PP5000_EN 0,
            .gpio_set_level .TOUCHSCREEN_RESET_L 0], by simp⟩

/-- C1 witness: in the dead environment every listed fault fires, and each
faulting state steps to the stated less-on state. -/
theorem fault_asymmetry_witness :
    (power_handle_state env_dead flags0 .POWER_S3).state = .POWER_S3S5 ∧
    (power_handle_state env_dead flags0 .POWER_S0).state = .POWER_S0S3 ∧
    (power_handle_state env_dead flags0 .POWER_G3S5).state = .POWER_G3 ∧
    (power_handle_state env_dead flags0 .POWER_S5S3).state = .POWER_S5G3 ∧
    (power_handle_state env_dead flags0 .POWER_S3S0).state = .POWER_S3 :=
  ⟨((fault_asymmetry env_dead flags0).1 (by decide)).1,
   ((fault_asymmetry env_dead flags0).2.1 (by decide)).1,
   ((fault_asymmetry env_dead flags0).2.2.1 (by decide)).1,
   ((fault_asymmetry env_dead flags0).2.2.2.1 (Or.inl (by decide))).1,
   ((fault_asymmetry env_dead flags0).2.2.2.2 (by decide)).1⟩

/-- C2 counterexample: with every signal of `IN_ALL_S0` asserted except the
core power-good `IN_PGOOD_VCORE`, and the AP still requesting full power,
`power_handle_state(POWER_S0)` stays in `POWER_S0` with no side effect at
all — it neither returns `POWER_S0S3` nor performs the
`chipset_force_shutdown` writes, because `IN_PGOOD_S0` does not contain the
core rail. -/
theorem s0_vcore_drop_counterexample :
    power_has_signals env_no_vcore IN_PGOOD_VCORE = false ∧
    power_has_signals env_no_vcore IN_PGOOD_S0 = true ∧
    power_handle_state env_no_vcore flags0 .POWER_S0 =
      ⟨.POWER_S0, flags0, []⟩ := by
  decide

/-- C2 (amended): from steady `S0`, absence of a required `S0` rail — any
bit of `IN_PGOOD_S0`, i.e. `IN_PGOOD_S5` or `IN_PGOOD_PP5000` — makes the
very next `power_handle_state(POWER_S0)` call return `POWER_S0S3`, its
trace being exactly the `chipset_force_shutdown` writes (so the forced
shutdown happens before the state changes); dropping `IN_PGOOD_VCORE`
alone does not qualify, since `IN_PGOOD_S0` does not include the core
rail. -/
theorem s0_rail_drop (e : Env) (f : EcState)
    (h : power_has_signals e IN_PGOOD_S0 = false) :
    power_handle_state e f .POWER_S0 =
      ⟨.POWER_S0S3, f, chipset_force_shutdown_trace⟩ := by
  simp [power_handle_state, h]

/-- C2 witness: in the dead environment the required `S0` rails are absent
and the step from `S0` faults to `S0S3`. -/
theorem s0_rail_drop_witness :
    power_handle_state env_dead flags0 .POWER_S0 =
      ⟨.POWER_S0S3, flags0, chipset_force_shutdown_trace⟩ :=
  s0_rail_drop env_dead flags0 (by decide)

/-- C3: if the platform-reset line stays asserted at every one of the 50
one-millisecond poll samples of the `S3S0` edge, `power_handle_state`
releases the power button, performs the `chipset_force_shutdown` writes and
sets `restart_from_s5` (returning `POWER_S0`); once the forced shutdown has
dropped a required rail, the following steps pass through `S0S3` back to
`S3` with the flag still set, and the subsequent `S3S5` edge detects the
flag, clears it, pulses the power button and returns `POWER_G3S5` rather
than stopping at `S5`. -/
theorem pltrst_timeout_restart (e1 e2 : Env) (f : EcState)
    (hwait : power_wait_signals e1 IN_PGOOD_S0 = false)
    (hstuck : ∀ i, i < 50 → e1.pltrst_asserted i = true)
    (hdrop : power_has_signals e2 IN_PGOOD_S0 = false) :
    ((restart_chain e1 e2 f).1.state = .POWER_S0 ∧
     (restart_chain e1 e2 f).1.flags.restart_from_s5 = 1 ∧
     Effect.power_button_pch_release ∈ (restart_chain e1 e2 f).1.trace ∧
     chipset_force_shutdown_trace <:+: (restart_chain e1 e2 f).1.trace) ∧
    ((restart_chain e1 e2 f).2.1.state = .POWER_S0S3 ∧
     (restart_chain e1 e2 f).2.1.flags.restart_from_s5 = 1) ∧
    ((restart_chain e1 e2 f).2.2.1.state = .POWER_S3 ∧
     (restart_chain e1 e2 f).2.2.1.flags.restart_from_s5 = 1) ∧
    ((restart_chain e1 e2 f).2.2.2.state = .POWER_G3S5 ∧
     (restart_chain e1 e2 f).2.2.2.flags.restart_from_s5 = 0 ∧
     Effect.power_button_pch_pulse ∈ (restart_chain e1 e2 f).2.2.2.trace) := by
  have hw : e1.wait_timeout IN_PGOOD_S0 = false := hwait
  have hpoll : pltrst_poll e1.pltrst_asserted = 50 := by
    have hnone : (List.range 50).find? (fun i => ! e1.pltrst_asserted i) = none := by
      rw [List.find?_eq_none]
      intro x hx
      simp [hstuck x (List.mem_range.mp hx)]
    simp [pltrst_poll, hnone]
  have hr1 : power_handle_state e1 f .POWER_S3S0 =
      ⟨.POWER_S0, { f with restart_from_s5 := 1, fake_pltrst_timeout := 0 },
       s3s0_on_trace f ++ pltrst_poll_delays e1.pltrst_asserted ++
         [.power_button_pch_release] ++ chipset_force_shutdown_trace⟩ := by
    simp [power_handle_state, power_wait_signals, hw, hpoll, s3s0_on_trace]
  have hr2 : power_handle_state e2
      { f with restart_from_s5 := 1, fake_pltrst_timeout := 0 } .POWER_S0 =
      ⟨.POWER_S0S3, { f with restart_from_s5 := 1, fake_pltrst_timeout := 0 },
       chipset_force_shutdown_trace⟩ := by
    simp [power_handle_state, hdrop]
  have h3s : (power_handle_state e2
      { f with restart_from_s5 := 1, fake_pltrst_timeout := 0 } .POWER_S0S3).state
      = .POWER_S3 := by
    simp [power_handle_state]
  have h3f : (power_handle_state e2
      { f with restart_from_s5 := 1, fake_pltrst_timeout := 0 } .POWER_S0S3).flags
      = { f with restart_from_s5 := 1, fake_pltrst_timeout := 0 } := by
    simp [power_handle_state]
  simp only [restart_chain, hr1, hr2, h3s, h3f]
  refine ⟨⟨trivial, trivial, ?_, ?_⟩, ⟨trivial, trivial⟩, ⟨trivial, trivial⟩,
    ?_, ?_, ?_⟩
  · simp
  · exact ⟨s3s0_on_trace f ++ pltrst_poll_delays e1.pltrst_asserted ++
      [.power_button_pch_release], [], by simp⟩
  · simp [power_handle_state]
  · simp [power_handle_state]
  · simp [power_handle_state]

/-- C3 witness: with the rails up but the platform-reset line stuck
asserted, then a dead post-shutdown environment, the chain sets the restart
flag and the `S3S5` edge re-enters via `G3S5`. -/
theorem pltrst_timeout_restart_witness :
    (restart_chain env_stuck env_dead flags0).1.state = .POWER_S0 ∧
    (restart_chain env_stuck env_dead flags0).1.flags.restart_from_s5 = 1 ∧
    (restart_chain env_stuck env_dead flags0).2.2.1.state = .POWER_S3 ∧
    (restart_chain env_stuck env_dead flags0).2.2.2.state = .POWER_G3S5 :=
  ⟨(pltrst_timeout_restart env_stuck env_dead flags0 (by decide)
      (fun _ _ => rfl) (by decide)).1.1,
   (pltrst_timeout_restart env_stuck env_dead flags0 (by decide)
      (fun _ _ => rfl) (by decide)).1.2.1,
   (pltrst_timeout_restart env_stuck env_dead flags0 (by decide)
      (fun _ _ => rfl) (by decide)).2.2.1.1,
   (pltrst_timeout_restart env_stuck env_dead flags0 (by decide)
      (fun _ _ => rfl) (by decide)).2.2.2.1⟩

/-- C4: for every state, flag assignment and environment, the step function
is total: it returns a member of the power-state enum; its only loop, the
platform-reset poll, inspects at most 50 samples; and a steady state with
no outgoing condition satisfied is returned unchanged. -/
theorem handle_state_total (e : Env) (f : EcState) (s : PowerState) :
    (power_handle_state e f s).state ∈ all_power_states ∧
    pltrst_poll e.pltrst_asserted ≤ 50 ∧
    (no_outgoing e s = true → (power_handle_state e f s).state = s) := by
  refine ⟨?_, ?_, ?_⟩
  · cases h : (power_handle_state e f s).state <;> simp [all_power_states]
  · unfold pltrst_poll
    rcases hfind : (List.range 50).find? (fun i => ! e.pltrst_asserted i) with _ | a
    · simp
    · simp only [Option.getD_some]
      exact le_of_lt (List.mem_range.mp (List.mem_of_find?_eq_some hfind))
  · intro h
    cases s <;> simp_all [no_outgoing, power_handle_state]

/-- C4 witness: in the dead environment the `S5` state has no outgoing
condition satisfied and is returned unchanged. -/
theorem handle_state_total_witness :
    (power_handle_state env_dead flags0 .POWER_S5).state ∈ all_power_states ∧
    (power_handle_state env_dead flags0 .POWER_S5).state = .POWER_S5 :=
  ⟨(handle_state_total env_dead flags0 .POWER_S5).1,
   (handle_state_total env_dead flags0 .POWER_S5).2.2 (by decide)⟩

/-- C5: `power_chipset_init` returns `POWER_S0` — with the deep-sleep
disable as its only side effect, so no rail actuation and no
startup/resume notification — if and only if the firmware jumped images
and the live mask contains every bit of `IN_ALL_S0`; when it jumped but
the mask does not match, it forces the eight rail/reset lines to their
`G3` defaults, turns wireless off, and returns `POWER_G3`. -/
theorem power_chipset_init_spec (jumped : Bool) (signals : Nat) :
    ((power_chipset_init jumped signals).1 = .POWER_S0 ↔
      jumped = true ∧ (signals &&& IN_ALL_S0) = IN_ALL_S0) ∧
    ((signals &&& IN_ALL_S0) = IN_ALL_S0 →
      power_chipset_init true signals = (.POWER_S0, [.disable_sleep])) ∧
    ((signals &&& IN_ALL_S0) ≠ IN_ALL_S0 →
      power_chipset_init true signals =
        (.POWER_G3,
         [.gpio_set_level .PCH_CORE_PWROK 0,
          .gpio_set_level .VCORE_EN 0,
          .gpio_set_level .SUSP_VR_EN 0,
          .gpio_set_level .PP1350_EN 0,
          .gpio_set_level .PP3300_DX_EN 0,
          .gpio_set_level .PP5000_EN 0,
          .gpio_set_level .PCH_RSMRST_L 0,
          .gpio_set_level .PCH_SYS_PWROK 0,
          .wireless_set_state .WIRELESS_OFF])) := by
  refine ⟨?_, fun hm => ?_, fun hm => ?_⟩
  · cases jumped with
    | false => simp [power_chipset_init]
    | true =>
      by_cases hm : (signals &&& IN_ALL_S0) = IN_ALL_S0 <;>
        simp [power_chipset_init, hm]
  · simp [power_chipset_init, hm]
  · simp [power_chipset_init, hm]

/-- C5 witness: with all six signals asserted the init shortcut lands in
`S0` with only the deep-sleep disable; with no signal asserted it falls to
`G3`. -/
theorem power_chipset_init_spec_witness :
    power_chipset_init true 63 = (.POWER_S0, [.disable_sleep]) ∧
    (power_chipset_init true 0).1 = .POWER_G3 :=
  ⟨(power_chipset_init_spec true 63).2.1 (by decide),
   by rw [(power_chipset_init_spec true 0).2.2 (by decide)]⟩

/-- C6: the `S3S5` edge decides its exit with `restart_from_s5` taking
precedence over `pause_in_s5`: with the restart flag set it clears the
flag, delays 100 ms, pulses the power button and returns `POWER_G3S5`
(whatever `pause_in_s5` holds); otherwise it returns `POWER_S5` when
`pause_in_s5` is nonzero and `POWER_S5G3` when it is zero. -/
theorem s3s5_exit (e : Env) (f : EcState) :
    (f.restart_from_s5 ≠ 0 →
      power_handle_state e f .POWER_S3S5 =
        ⟨.POWER_G3S5, { f with restart_from_s5 := 0 },
         s3s5_base_trace ++ [.delay_us (100 * MSEC), .power_button_pch_pulse]⟩) ∧
    (f.restart_from_s5 = 0 → f.pause_in_s5 ≠ 0 →
      power_handle_state e f .POWER_S3S5 = ⟨.POWER_S5, f, s3s5_base_trace⟩) ∧
    (f.restart_from_s5 = 0 → f.pause_in_s5 = 0 →
      power_handle_state e f .POWER_S3S5 = ⟨.POWER_S5G3, f, s3s5_base_trace⟩) := by
  refine ⟨fun h => ?_, fun h1 h2 => ?_, fun h1 h2 => ?_⟩
  · simp [power_handle_state, s3s5_base_trace, h]
  · simp [power_handle_state, s3s5_base_trace, h1, h2]
  · simp [power_handle_state, s3s5_base_trace, h1, h2]

/-- C6 witness: the three exits at concrete flag values, the first with
`pause_in_s5` set to show the restart flag wins. -/
theorem s3s5_exit_witness :
    power_handle_state env_dead ⟨0, 1, 1, 0⟩ .POWER_S3S5 =
      ⟨.POWER_G3S5, ⟨0, 1, 0, 0⟩,
       s3s5_base_trace ++ [.delay_us (100 * MSEC), .power_button_pch_pulse]⟩ ∧
    power_handle_state env_dead ⟨0, 1, 0, 0⟩ .POWER_S3S5 =
      ⟨.POWER_S5, ⟨0, 1, 0, 0⟩, s3s5_base_trace⟩ ∧
    power_handle_state env_dead ⟨0, 0, 0, 0⟩ .POWER_S3S5 =
      ⟨.POWER_S5G3, ⟨0, 0, 0, 0⟩, s3s5_base_trace⟩ :=
  ⟨(s3s5_exit env_dead ⟨0, 1, 1, 0⟩).1 (by decide),
   (s3s5_exit env_dead ⟨0, 1, 0, 0⟩).2.1 rfl (by decide),
   (s3s5_exit env_dead ⟨0, 0, 0, 0⟩).2.2 rfl rfl⟩

/-- C7 counterexample: the writes of `chipset_force_shutdown` are not
\"both PCH power-OK lines to 0\" — the second write drives `PCH_RSMRST_L`,
not `PCH_CORE_PWROK`, low. -/
theorem chipset_force_shutdown_counterexample :
    (chipset_force_shutdown ⟨0, 1, 0, 0⟩).2 ≠
      [Effect.gpio_set_level .PCH_SYS_PWROK 0,
       Effect.gpio_set_level .PCH_CORE_PWROK 0] ∧
    Effect.gpio_set_level Gpio.PCH_CORE_PWROK 0 ∉
      (chipset_force_shutdown ⟨0, 1, 0, 0⟩).2 := by
  decide

/-- C7 (amended): `chipset_force_shutdown` performs exactly two GPIO
writes — `PCH_SYS_PWROK` to 0 and `PCH_RSMRST_L` to 0 — and modifies no
other line and no state-machine variable. -/
theorem chipset_force_shutdown_spec (f : EcState) :
    chipset_force_shutdown f =
      (f, [Effect.gpio_set_level .PCH_SYS_PWROK 0,
           Effect.gpio_set_level .PCH_RSMRST_L 0]) := rfl

/-- C8: for every environment sequence, flag assignment and number of
repetitions, iterating `power_handle_state` from `POWER_G3` returns
`POWER_G3` with the flags untouched and an empty effect trace. -/
theorem g3_idempotent (es : Nat → Env) (f : EcState) (n : Nat) :
    run_from es f .POWER_G3 n = ⟨.POWER_G3, f, []⟩ := by
  induction n generalizing es with
  | zero => rfl
  | succ n ih => simp [run_from, power_handle_state, ih]

/-- C9: the `pause_in_s5` console command rejects an argument that parses
as neither true nor false with `EC_ERROR_INVAL`, leaving the tunable
unchanged, and stores a valid boolean argument and returns `EC_SUCCESS`. -/
theorem console_command_gsv_spec (cmd arg : String) (rest : List String)
    (p : Int) :
    (parse_bool arg = none →
      console_command_gsv (cmd :: arg :: rest) p = (.EC_ERROR_INVAL, p)) ∧
    (∀ b, parse_bool arg = some b →
      console_command_gsv (cmd :: arg :: rest) p =
        (.EC_SUCCESS, if b then 1 else 0)) := by
  constructor
  · intro h
    simp [console_command_gsv, h]
  · intro b h
    simp [console_command_gsv, h]

/-- C9 witness: a non-boolean argument is rejected and leaves the value in
place; the argument `on` stores 1 and succeeds. -/
theorem console_command_gsv_spec_witness :
    console_command_gsv ["pause_in_s5", "maybe"] 1 = (.EC_ERROR_INVAL, 1) ∧
    console_command_gsv ["pause_in_s5", "on"] 0 = (.EC_SUCCESS, 1) :=
  ⟨(console_command_gsv_spec "pause_in_s5" "maybe" [] 1).1 (by decide),
   by simpa using
     (console_command_gsv_spec "pause_in_s5" "on" [] 0).2 true (by decide)⟩

/-- C10: `chipset_reset` with a nonzero `cold_reset` is a no-op when
`PCH_SYS_PWROK` already reads low; when it reads high it performs the
drop, 100 µs delay and restore of PWROK; the non-cold path unconditionally
pulses `PCH_RCIN_L` low for 32 ms. -/
theorem chipset_reset_spec (e : Env) (cold : Int) :
    (cold ≠ 0 → e.gpio_in .PCH_SYS_PWROK = 0 → chipset_reset e cold = []) ∧
    (cold ≠ 0 → e.gpio_in .PCH_SYS_PWROK ≠ 0 →
      chipset_reset e cold =
        [.gpio_set_level .PCH_SYS_PWROK 0, .delay_us 100,
         .gpio_set_level .PCH_SYS_PWROK 1]) ∧
    (cold = 0 →
      chipset_reset e cold =
        [.gpio_set_level .PCH_RCIN_L 0, .delay_us (32 * MSEC),
         .gpio_set_level .PCH_RCIN_L 1]) := by
  refine ⟨fun h1 h2 => ?_, fun h1 h2 => ?_, fun h1 => ?_⟩
  · simp [chipset_reset, h1, h2]
  · simp [chipset_reset, h1, h2]
  · simp [chipset_reset, h1]

/-- C10 witness: the three paths at concrete inputs — PWROK low with
`cold_reset = 1`, PWROK high with `cold_reset = 1`, and the warm pulse. -/
theorem chipset_reset_spec_witness :
    chipset_reset env_dead 1 = [] ∧
    chipset_reset env_live 1 =
      [.gpio_set_level .PCH_SYS_PWROK 0, .delay_us 100,
       .gpio_set_level .PCH_SYS_PWROK 1] ∧
    chipset_reset env_live 0 =
      [.gpio_set_level .PCH_RCIN_L 0, .delay_us (32 * MSEC),
       .gpio_set_level .PCH_RCIN_L 1] :=
  ⟨(chipset_reset_spec env_dead 1).1 (by decide) rfl,
   (chipset_reset_spec env_live 1).2.1 (by decide) (by decide),
   (chipset_reset_spec env_live 0).2.2 rfl⟩
